import Mathlib

/-!
# Verification of the pyslm block-support CLI and example glue code

Shallow embedding of `scripts/block_support_structure_gen.py` and
`examples/example_block_support_structure.py` from the pyslm repository.

Python floats are modelled as exact rationals (`ℚ`, built with `mkRat` so
concrete values evaluate); Python strings undergoing character-level work
are modelled as `List Char`. Python's builtin `float()` string conversion
is an external primitive, so functions calling it are parameterised by an
arbitrary partial parser `pfloat` (`none` models a `ValueError`); the
concrete `decimalFloat` instantiates it on plain decimal literals for
witnesses. Functions of the pyslm core package (which lives outside the
`scripts/`/`examples/` glue verified here) are modelled from the spec and
marked as such in their doc comments.
-/

deriving instance DecidableEq for Except

namespace PySLM

/-- Models Python's `str.strip()`: remove leading and trailing whitespace. -/
def pyStrip (s : List Char) : List Char :=
  ((s.dropWhile Char.isWhitespace).reverse.dropWhile Char.isWhitespace).reverse

/-- A run of ASCII digits read as a natural number; `none` if the run is
empty or contains a non-digit. Helper for `decimalFloat`. -/
def digitRun (cs : List Char) : Option ℕ :=
  if cs = [] then none
  else if cs.all Char.isDigit then
    some (cs.foldl (fun a c => a * 10 + (c.toNat - 48)) 0)
  else none

/-- Models Python's builtin `float()` restricted to plain decimal literals:
an optional sign, a digit run, and an optional fractional digit run
(exponents, `inf`/`nan`, and forms like `.5` are outside the fragment the
inputs considered here exercise). -/
def decimalFloat (s : List Char) : Option ℚ :=
  let core : List Char → Option ℚ := fun cs =>
    match cs.splitOn '.' with
    | [ip] => (digitRun ip).map (fun m => mkRat m 1)
    | [ip, fp] =>
      match digitRun ip, digitRun fp with
      | some i, some f => some (mkRat (i * 10 ^ fp.length + f) (10 ^ fp.length))
      | _, _ => none
    | _ => none
  match s with
  | '-' :: rest => (core rest).map (fun q => -q)
  | '+' :: rest => core rest
  | cs => core cs

/-- `[float(part) for part in parts]` inside a `try`: maps `float()` over the
chunks, failing (the `ValueError` branch) as soon as one chunk fails. -/
def floatList (pfloat : List Char → Option ℚ) :
    List (List Char) → Option (List ℚ)
  | [] => some []
  | p :: rest =>
    match pfloat p with
    | some v => (floatList pfloat rest).map (v :: ·)
    | none => none

/-- The chunk list `[chunk.strip() for chunk in value.split(",") if
chunk.strip()]` built by `parse_rotation`: split on commas, strip each
chunk, keep the chunks that are non-empty after stripping. -/
def rotationChunks (value : List Char) : List (List Char) :=
  ((value.splitOn ',').map pyStrip).filter (fun c => c ≠ [])

/-- `parse_rotation` from `scripts/block_support_structure_gen.py`: requires
exactly three non-empty stripped chunks and converts each with `float()`.
`Except.error` models raising `argparse.ArgumentTypeError`. -/
def parse_rotation (pfloat : List Char → Option ℚ) (value : List Char) :
    Except (List Char) (List ℚ) :=
  if (rotationChunks value).length ≠ 3 then
    .error "Rotation must contain three comma-separated values, e.g. 62,50,0.".toList
  else
    match floatList pfloat (rotationChunks value) with
    | some fs => .ok fs
    | none => .error "Rotation values must be numeric, e.g. 62,50,0.".toList

/-- The `argparse.Namespace` produced by `parse_args`: two positional paths
plus the flag and the ten typed options declared in the source. -/
structure Namespace where
  input_stl : List Char
  output_glb : List Char
  showScene : Bool
  overhang_angle : ℚ
  ray_resolution : ℚ
  inner_gap : ℚ
  outer_gap : ℚ
  simplify_factor : ℚ
  triangulation_spacing : ℚ
  min_area : ℚ
  spline_factor : ℚ
  drop_height : ℚ
  rotation : List ℚ
deriving DecidableEq

/-- The defaults declared by the `add_argument` calls in `parse_args`
(`55.0`, `0.05`, `0.3`, `0.3`, `0.5`, `2.0`, `0.1`, `10.0`, `10.0`,
`[0, 0, 0]`); positional slots start empty and are filled when parsing
finishes. -/
def defaultNamespace : Namespace where
  input_stl := []
  output_glb := []
  showScene := false
  overhang_angle := 55
  ray_resolution := mkRat 5 100
  inner_gap := mkRat 3 10
  outer_gap := mkRat 3 10
  simplify_factor := mkRat 5 10
  triangulation_spacing := 2
  min_area := mkRat 1 10
  spline_factor := 10
  drop_height := 10
  rotation := [0, 0, 0]

/-- The help string of the `--rotation` option, verbatim from the source. -/
def rotationHelp : List Char :=
  "Euler rotations in degrees as comma-separated values (default: 62,50,0).".toList

/-- The argparse parsing loop for the option table declared in `parse_args`:
each `--name value` pair converts the value with the option's declared
`type` (`float()` for the numeric options, `parse_rotation` for
`--rotation`), `--show` is a `store_true` flag, any other `--` token is an
unknown option (argparse error, modelled `none`), and bare tokens collect
as positionals, of which exactly two must remain at the end. -/
def parseTokens (pfloat : List Char → Option ℚ) :
    List (List Char) → Namespace → List (List Char) → Option Namespace
  | [], ns, positionals =>
    match positionals with
    | [i, o] => some { ns with input_stl := i, output_glb := o }
    | _ => none
  | tok :: rest, ns, ps =>
    if tok = "--show".toList then
      parseTokens pfloat rest { ns with showScene := true } ps
    else if tok.take 2 = "--".toList then
      match rest with
      | [] => none
      | v :: rest2 =>
        if tok = "--overhang-angle".toList then
          match pfloat v with
          | some x => parseTokens pfloat rest2 { ns with overhang_angle := x } ps
          | none => none
        else if tok = "--ray-resolution".toList then
          match pfloat v with
          | some x => parseTokens pfloat rest2 { ns with ray_resolution := x } ps
          | none => none
        else if tok = "--inner-gap".toList then
          match pfloat v with
          | some x => parseTokens pfloat rest2 { ns with inner_gap := x } ps
          | none => none
        else if tok = "--outer-gap".toList then
          match pfloat v with
          | some x => parseTokens pfloat rest2 { ns with outer_gap := x } ps
          | none => none
        else if tok = "--simplify-factor".toList then
          match pfloat v with
          | some x => parseTokens pfloat rest2 { ns with simplify_factor := x } ps
          | none => none
        else if tok = "--triangulation-spacing".toList then
          match pfloat v with
          | some x =>
            parseTokens pfloat rest2 { ns with triangulation_spacing := x } ps
          | none => none
        else if tok = "--min-area".toList then
          match pfloat v with
          | some x => parseTokens pfloat rest2 { ns with min_area := x } ps
          | none => none
        else if tok = "--spline-factor".toList then
          match pfloat v with
          | some x => parseTokens pfloat rest2 { ns with spline_factor := x } ps
          | none => none
        else if tok = "--drop-height".toList then
          match pfloat v with
          | some x => parseTokens pfloat rest2 { ns with drop_height := x } ps
          | none => none
        else if tok = "--rotation".toList then
          match parse_rotation pfloat v with
          | .ok r => parseTokens pfloat rest2 { ns with rotation := r } ps
          | .error _ => none
        else none
    else parseTokens pfloat rest ns (ps ++ [tok])

/-- `parse_args` from `scripts/block_support_structure_gen.py`: parse the
argument vector against the declared option table, starting from the
declared defaults. `none` models an argparse parse error (which exits the
process before `main`'s body runs). -/
def parse_args (pfloat : List Char → Option ℚ) (argv : List (List Char)) :
    Option Namespace :=
  parseTokens pfloat argv defaultNamespace []

/-- The eight tunables of `pyslm.support.BlockSupportGenerator` that
`configure_generator` assigns. -/
structure BlockSupportGenerator where
  overhangAngle : ℚ
  rayProjectionResolution : ℚ
  innerSupportEdgeGap : ℚ
  outerSupportEdgeGap : ℚ
  simplifyPolygonFactor : ℚ
  triangulationSpacing : ℚ
  minimumAreaThreshold : ℚ
  splineSimplificationFactor : ℚ
deriving DecidableEq

/-- `configure_generator` from the source: creates a generator and assigns
each of its eight fields from the corresponding CLI argument, with no
validation or clamping of any value. -/
def configure_generator (args : Namespace) : BlockSupportGenerator where
  overhangAngle := args.overhang_angle
  rayProjectionResolution := args.ray_resolution
  innerSupportEdgeGap := args.inner_gap
  outerSupportEdgeGap := args.outer_gap
  simplifyPolygonFactor := args.simplify_factor
  triangulationSpacing := args.triangulation_spacing
  minimumAreaThreshold := args.min_area
  splineSimplificationFactor := args.spline_factor

/-- A Python value held in a region's `supportVolume` attribute. Modelled
from the spec: the pyslm core (outside the verified glue code) produces, per
SupportRegion, either no support solid (`pyNone`, Python `None`) or a
triangulated solid volume carried as its face list; Python truthiness is
falsy for `None` and for an empty mesh. -/
inductive PyVal where
  | pyNone : PyVal
  | pyMesh (faces : List (ℕ × ℕ × ℕ)) : PyVal
deriving DecidableEq

/-- Python truthiness of a `supportVolume` value: `None` and an empty mesh
are falsy, a non-empty mesh is truthy. -/
def PyVal.truthy : PyVal → Bool
  | .pyNone => false
  | .pyMesh faces => !faces.isEmpty

/-- One element of the list returned by `identifySupportRegions`, carrying
the attribute the CLI reads. -/
structure Region where
  supportVolume : PyVal
deriving DecidableEq

/-- The list comprehension in `main`:
`[region.supportVolume for region in support_regions if region.supportVolume]`. -/
def supportMeshes : List Region → List PyVal
  | [] => []
  | r :: rest =>
    if r.supportVolume.truthy then r.supportVolume :: supportMeshes rest
    else supportMeshes rest

/-- The environment `main` runs against: whether `args.input_stl.is_file()`
holds, whether `configure_part` raises, what `identifySupportRegions`
returns, and whether `export_supports` / `maybe_show_scene` raise. -/
structure Env where
  inputIsFile : Bool
  loadFails : Bool
  regions : List Region
  exportFails : Bool
  showFails : Bool
deriving DecidableEq

/-- The observable outcome of one run of `main`'s body: the returned exit
code, whether the generator was configured and `identifySupportRegions`
invoked, whether the empty-result warning was logged, the support-mesh list
written to the output path (`none` when no complete output file was
produced), whether `maybe_show_scene` was attempted, and whether its
exception was logged. -/
structure RunResult where
  exitCode : ℤ
  generatorConfigured : Bool
  regionsIdentified : Bool
  warnedEmpty : Bool
  written : Option (List PyVal)
  showAttempted : Bool
  showExceptionLogged : Bool
deriving DecidableEq

/-- The body of `main` from `scripts/block_support_structure_gen.py` after
argument parsing, as a function of the parsed arguments and the
environment: check the input path, load the part, configure the generator,
identify regions, filter truthy support volumes, return 0 with a warning
and no output when none remain, otherwise export (returning 1 if the export
raises), then optionally show the scene, logging but swallowing any
exception there, and return 0. -/
def mainRun (args : Namespace) (env : Env) : RunResult :=
  if !env.inputIsFile then
    { exitCode := 1, generatorConfigured := false, regionsIdentified := false,
      warnedEmpty := false, written := none, showAttempted := false,
      showExceptionLogged := false }
  else if env.loadFails then
    { exitCode := 1, generatorConfigured := false, regionsIdentified := false,
      warnedEmpty := false, written := none, showAttempted := false,
      showExceptionLogged := false }
  else
    let meshes := supportMeshes env.regions
    if meshes.isEmpty then
      { exitCode := 0, generatorConfigured := true, regionsIdentified := true,
        warnedEmpty := true, written := none, showAttempted := false,
        showExceptionLogged := false }
    else if env.exportFails then
      { exitCode := 1, generatorConfigured := true, regionsIdentified := true,
        warnedEmpty := false, written := none, showAttempted := false,
        showExceptionLogged := false }
    else
      { exitCode := 0, generatorConfigured := true, regionsIdentified := true,
        warnedEmpty := false, written := some meshes,
        showAttempted := args.showScene,
        showExceptionLogged := args.showScene && env.showFails }

/-! ## The slicing and layer-conversion steps of
`examples/example_block_support_structure.py` -/

/-- A 2D cross-section polygon as produced by `to_planar` +
`polygons_full`: an exterior boundary ring (shapely exposes it as possibly
absent) and a list of interior hole rings, each a closed coordinate loop. -/
structure Polygon where
  exterior : Option (List (ℚ × ℚ))
  interiors : List (List (ℚ × ℚ))

/-- `pyslm.geometry.ContourGeometry`: one closed boundary loop of a
cross-section at a fixed Z height, as an ordered coordinate sequence. -/
structure ContourGeometry where
  coords : List (ℚ × ℚ)

/-- `pyslm.geometry.Layer`: an ordered collection of contour geometries. -/
structure Layer where
  geometry : List ContourGeometry

/-- A solid support block as the example slices it: its Z extent and, for
each plane height, the cross-section polygons of the planar section there. -/
structure Block where
  zMin : ℚ
  zMax : ℚ
  crossSection : ℚ → List Polygon

/-- Modelled from the spec: the planar-section primitive
(`trimesh.Trimesh.section`, an external collaborator of the core) returns
the boundary rings of the cross-section at the requested height, or an
empty result (`None`) when the height lies outside the solid's Z extent —
no fabricated contour and no failure. -/
def Block.section (b : Block) (z : ℚ) : Option (List Polygon) :=
  if b.zMin ≤ z ∧ z ≤ b.zMax then some (b.crossSection z) else none

/-- The slicing loop of the example: for each block take its section at the
requested height and append it to `support_sections` only when it is not
`None`. -/
def supportSections (blocks : List Block) (z : ℚ) : List (List Polygon) :=
  match blocks with
  | [] => []
  | b :: rest =>
    match b.section z with
    | some sec => sec :: supportSections rest z
    | none => supportSections rest z

/-- The inner body of the example's layer loop for one polygon: append a
`ContourGeometry` with the exterior coordinates when the exterior is
present, then append one `ContourGeometry` per interior ring in order. -/
def appendPolygonContours (geom : List ContourGeometry) (p : Polygon) :
    List ContourGeometry :=
  let geom1 :=
    match p.exterior with
    | some coords => geom ++ [⟨coords⟩]
    | none => geom
  p.interiors.foldl (fun g ring => g ++ [⟨ring⟩]) geom1

/-- The example's layer-conversion step: starting from a fresh `Layer`,
iterate over the collected planar sections and, within each, over its
polygons, appending contour geometries as the source loop does. -/
def buildLayer (sections : List (List Polygon)) : Layer :=
  ⟨sections.foldl (fun g sec => sec.foldl appendPolygonContours g) []⟩

/-- The boundary loops contributed by a single polygon: its exterior loop
(when present) followed by its interior loops in interior order. -/
def polyLoops (p : Polygon) : List ContourGeometry :=
  (match p.exterior with
  | some coords => [⟨coords⟩]
  | none => []) ++ p.interiors.map (fun ring => (⟨ring⟩ : ContourGeometry))

/-- The attributes of `pyslm.core.Part` that `configure_part` assigns (the
geometry loading itself is external file I/O; the loaded path is recorded). -/
structure Part where
  name : List Char
  geometrySource : List Char
  scaleFactor : ℚ
  rotation : List ℚ
  dropToPlatformZ : ℚ

/-- `configure_part` from the source: create the `Part`, load its geometry
from the given path, set a unit scale factor, assign the rotation triple,
and drop it onto the platform by the given offset. -/
def configure_part (stl_path : List Char) (drop_height : ℚ)
    (rotation : List ℚ) : Part where
  name := "block_support_part".toList
  geometrySource := stl_path
  scaleFactor := 1
  rotation := rotation
  dropToPlatformZ := drop_height

/-- A concrete support block used to instantiate the slicing theorems: Z
extent `[0, 12]` with a one-polygon cross-section at every height. -/
def demoBlock : Block where
  zMin := 0
  zMax := 12
  crossSection := fun _ => [⟨some [(0, 0), (1, 0), (1, 1), (0, 0)], []⟩]

end PySLM

example : PySLM.decimalFloat "120".toList = some 120 := by decide
example : PySLM.decimalFloat "-1".toList = some (-1) := by decide
example : PySLM.decimalFloat "abc".toList = none := by decide
example : PySLM.decimalFloat "0.05".toList = some (mkRat 5 100) := by decide
example :
    PySLM.parse_rotation PySLM.decimalFloat "62,50,0".toList =
      .ok [62, 50, 0] := by decide
example :
    (PySLM.parse_args PySLM.decimalFloat
        ["in.stl".toList, "out.glb".toList, "--overhang-angle".toList,
          "120".toList]).map (fun ns => ns.overhang_angle) = some 120 := by
  decide

namespace PySLM

/-! ## Helper lemmas -/

theorem floatList_isSome_iff (pf : List Char → Option ℚ)
    (l : List (List Char)) :
    (floatList pf l).isSome = true ↔ ∀ p ∈ l, (pf p).isSome = true := by
  induction l with
  | nil => simp [floatList]
  | cons p rest ih =>
    cases hp : pf p with
    | none =>
      simp only [floatList, hp, Option.isSome_none, Bool.false_eq_true,
        false_iff]
      intro h
      have hmem := h p (List.mem_cons_self p rest)
      rw [hp] at hmem
      exact Bool.false_ne_true hmem
    | some v =>
      simp [floatList, hp, ih]

theorem floatList_length (pf : List Char → Option ℚ) (l : List (List Char))
    (fs : List ℚ) (h : floatList pf l = some fs) : fs.length = l.length := by
  induction l generalizing fs with
  | nil =>
    simp only [floatList, Option.some.injEq] at h
    subst h; rfl
  | cons p rest ih =>
    cases hp : pf p with
    | none => simp [floatList, hp] at h
    | some v =>
      simp only [floatList, hp] at h
      cases hr : floatList pf rest with
      | none => rw [hr] at h; simp at h
      | some gs =>
        rw [hr] at h
        simp only [Option.map_some', Option.some.injEq] at h
        subst h
        simp [ih gs hr]

theorem supportMeshes_eq_nil (regions : List Region)
    (h : ∀ r ∈ regions, r.supportVolume.truthy = false) :
    supportMeshes regions = [] := by
  induction regions with
  | nil => rfl
  | cons r rest ih =>
    have hr := h r (List.mem_cons_self r rest)
    simp only [supportMeshes, hr, if_false, Bool.false_eq_true]
    exact ih fun x hx => h x (List.mem_cons_of_mem r hx)

theorem supportMeshes_eq_filter_map (regions : List Region) :
    supportMeshes regions =
      (regions.filter fun r => r.supportVolume.truthy).map
        (fun r => r.supportVolume) := by
  induction regions with
  | nil => rfl
  | cons r rest ih =>
    by_cases hr : r.supportVolume.truthy <;>
      simp [supportMeshes, hr, List.filter_cons, ih]

theorem supportMeshes_all_truthy (regions : List Region) :
    ∀ v ∈ supportMeshes regions, v.truthy = true := by
  induction regions with
  | nil => intro v hv; cases hv
  | cons r rest ih =>
    intro v hv
    by_cases hr : r.supportVolume.truthy
    · rw [supportMeshes, if_pos hr] at hv
      rcases List.mem_cons.mp hv with h | h
      · rw [h]; exact hr
      · exact ih v h
    · rw [supportMeshes, if_neg hr] at hv
      exact ih v hv

theorem supportMeshes_sublist (regions : List Region) :
    (supportMeshes regions).Sublist (regions.map fun r => r.supportVolume) := by
  induction regions with
  | nil => exact List.Sublist.refl _
  | cons r rest ih =>
    by_cases hr : r.supportVolume.truthy
    · rw [supportMeshes, if_pos hr, List.map_cons]
      exact ih.cons₂ _
    · rw [supportMeshes, if_neg hr, List.map_cons]
      exact ih.cons _

theorem foldl_append_map {α β : Type} (f : α → β) (l : List α) (a : List β) :
    l.foldl (fun g x => g ++ [f x]) a = a ++ l.map f := by
  induction l generalizing a with
  | nil => simp
  | cons x xs ih => simp [ih, List.append_assoc]

theorem appendPolygonContours_eq (g : List ContourGeometry) (p : Polygon) :
    appendPolygonContours g p = g ++ polyLoops p := by
  unfold appendPolygonContours polyLoops
  cases hext : p.exterior with
  | none => simpa using foldl_append_map ContourGeometry.mk p.interiors g
  | some coords =>
    have := foldl_append_map ContourGeometry.mk p.interiors (g ++ [⟨coords⟩])
    simpa [List.append_assoc] using this

theorem foldl_polys (sec : List Polygon) (g : List ContourGeometry) :
    sec.foldl appendPolygonContours g = g ++ sec.flatMap polyLoops := by
  induction sec generalizing g with
  | nil => simp
  | cons p rest ih =>
    rw [List.foldl_cons, appendPolygonContours_eq, ih, List.flatMap_cons,
      List.append_assoc]

theorem buildLayer_geometry (sections : List (List Polygon)) :
    (buildLayer sections).geometry =
      sections.flatMap fun sec => sec.flatMap polyLoops := by
  suffices h : ∀ g, sections.foldl (fun g sec => sec.foldl appendPolygonContours g) g =
      g ++ sections.flatMap (fun sec => sec.flatMap polyLoops) by
    simpa [buildLayer] using h []
  induction sections with
  | nil => simp
  | cons sec rest ih =>
    intro g
    rw [List.foldl_cons, foldl_polys, ih, List.flatMap_cons, List.append_assoc]

theorem supportSections_eq_filterMap (blocks : List Block) (z : ℚ) :
    supportSections blocks z = blocks.filterMap fun b => b.section z := by
  induction blocks with
  | nil => rfl
  | cons b rest ih =>
    unfold supportSections
    cases hb : b.section z <;> simp [hb, ih]

/-! ## Claim theorems -/

/-- C1: the claim says an overhang angle outside (0°, 90°) or a
non-positive gap/area parameter is rejected at configuration time and never
passed through to the generator; the code has no such validation — this run
of the CLI front end accepts an overhang angle of 120 and a minimum-area
threshold of −1 and configures them on the generator unchanged. -/
theorem cli_accepts_out_of_range_configuration :
    (parse_args decimalFloat
        ["part.stl".toList, "out.glb".toList, "--overhang-angle".toList,
          "120".toList, "--min-area".toList, "-1".toList]).map
        (fun ns =>
          ((configure_generator ns).overhangAngle,
            (configure_generator ns).minimumAreaThreshold)) =
      some (120, -1) ∧ (90 : ℚ) < 120 ∧ (-1 : ℚ) < 0 := by decide

/-- C3: with no generator option supplied on the command line, the
configured generator carries exactly the spec defaults: overhang angle 55,
ray projection resolution 0.05, inner and outer support edge gaps 0.3,
polygon simplification factor 0.5, triangulation spacing 2.0, minimum area
threshold 0.1, spline simplification factor 10. -/
theorem configured_defaults_match_spec (pfloat : List Char → Option ℚ) :
    (parse_args pfloat ["part.stl".toList, "out.glb".toList]).map
        configure_generator =
      some { overhangAngle := 55, rayProjectionResolution := 0.05,
             innerSupportEdgeGap := 0.3, outerSupportEdgeGap := 0.3,
             simplifyPolygonFactor := 0.5, triangulationSpacing := 2.0,
             minimumAreaThreshold := 0.1, splineSimplificationFactor := 10 } := by
  have h : parse_args pfloat ["part.stl".toList, "out.glb".toList] =
      some { defaultNamespace with
              input_stl := "part.stl".toList,
              output_glb := "out.glb".toList } := rfl
  rw [h, Option.map_some']
  refine congrArg some ?_
  simp only [configure_generator, defaultNamespace]
  norm_num [Rat.mkRat_eq_divInt, Rat.divInt_eq_div, BlockSupportGenerator.mk.injEq]

/-- C6: `parse_rotation` returns a three-float list exactly when the input
splits on commas into exactly three chunks that are non-empty after
stripping and each convert as a float, and raises
`argparse.ArgumentTypeError` (the error result) on every other input. -/
theorem parse_rotation_contract (pfloat : List Char → Option ℚ)
    (value : List Char) :
    ((∃ fs, parse_rotation pfloat value = .ok fs ∧ fs.length = 3) ↔
      ((rotationChunks value).length = 3 ∧
        ∀ p ∈ rotationChunks value, (pfloat p).isSome = true)) ∧
    ((∃ msg, parse_rotation pfloat value = .error msg) ↔
      ¬((rotationChunks value).length = 3 ∧
        ∀ p ∈ rotationChunks value, (pfloat p).isSome = true)) := by
  unfold parse_rotation
  by_cases hlen : (rotationChunks value).length = 3
  · rw [if_neg (not_not_intro hlen)]
    cases hfl : floatList pfloat (rotationChunks value) with
    | none =>
      have hnone : ¬ ∀ p ∈ rotationChunks value, (pfloat p).isSome = true := by
        intro hall
        have hs := (floatList_isSome_iff pfloat (rotationChunks value)).mpr hall
        rw [hfl] at hs
        exact Bool.false_ne_true hs
      simp only [hfl]
      constructor
      · constructor
        · rintro ⟨fs, hok, -⟩; cases hok
        · rintro ⟨-, hall⟩; exact absurd hall hnone
      · constructor
        · rintro -; exact fun hc => hnone hc.2
        · rintro -; exact ⟨_, rfl⟩
    | some fs =>
      have hsome : ∀ p ∈ rotationChunks value, (pfloat p).isSome = true := by
        refine (floatList_isSome_iff pfloat (rotationChunks value)).mp ?_
        rw [hfl]; rfl
      have hflen : fs.length = 3 := by
        rw [floatList_length pfloat (rotationChunks value) fs hfl]; exact hlen
      simp only [hfl]
      constructor
      · constructor
        · rintro -; exact ⟨hlen, hsome⟩
        · rintro -; exact ⟨fs, rfl, hflen⟩
      · constructor
        · rintro ⟨msg, hmsg⟩; cases hmsg
        · rintro hc; exact absurd ⟨hlen, hsome⟩ hc
  · rw [if_pos hlen]
    constructor
    · constructor
      · rintro ⟨fs, hok, -⟩; cases hok
      · rintro ⟨h3, -⟩; exact absurd h3 hlen
    · constructor
      · rintro -; exact fun hc => hlen hc.1
      · rintro -; exact ⟨_, rfl⟩

/-- C10: when `--rotation` is not supplied, the rotation applied to the
part by `configure_part` is `[0, 0, 0]`, even though the option's help text
claims the default is `62,50,0`. -/
theorem rotation_default_is_zero_triple (pfloat : List Char → Option ℚ) :
    (parse_args pfloat ["part.stl".toList, "out.glb".toList]).map
        (fun ns =>
          (configure_part ns.input_stl ns.drop_height ns.rotation).rotation) =
      some [0, 0, 0] ∧
    List.IsInfix "62,50,0".toList rotationHelp := by
  exact ⟨rfl, by decide⟩

/-- C2: when the input mesh path does not name an existing file, or loading
the part geometry fails, `main` returns exit code 1 before any
support-region processing: the generator is never configured or invoked and
nothing is written to the output path. -/
theorem main_aborts_on_input_error (args : Namespace) (env : Env)
    (h : env.inputIsFile = false ∨ env.loadFails = true) :
    (mainRun args env).exitCode = 1 ∧
    (mainRun args env).generatorConfigured = false ∧
    (mainRun args env).regionsIdentified = false ∧
    (mainRun args env).written = none := by
  rcases h with h | h
  · simp [mainRun, h]
  · cases hin : env.inputIsFile <;> simp [mainRun, h, hin]

/-- Witness for C2 at a concrete run: a missing input file. -/
theorem main_aborts_on_input_error_witness :
    (mainRun defaultNamespace ⟨false, false, [], false, false⟩).exitCode = 1 ∧
    (mainRun defaultNamespace
        ⟨false, false, [], false, false⟩).generatorConfigured = false ∧
    (mainRun defaultNamespace
        ⟨false, false, [], false, false⟩).regionsIdentified = false ∧
    (mainRun defaultNamespace ⟨false, false, [], false, false⟩).written =
      none :=
  main_aborts_on_input_error defaultNamespace
    ⟨false, false, [], false, false⟩ (Or.inl rfl)

/-- C4: when no identified region carries a truthy support volume, `main`
treats the empty result as success: it logs the warning, writes no output
file, and returns exit code 0. -/
theorem main_empty_result_is_success (args : Namespace) (env : Env)
    (hin : env.inputIsFile = true) (hload : env.loadFails = false)
    (hempty : ∀ r ∈ env.regions, r.supportVolume.truthy = false) :
    (mainRun args env).exitCode = 0 ∧
    (mainRun args env).warnedEmpty = true ∧
    (mainRun args env).written = none := by
  have hm : supportMeshes env.regions = [] :=
    supportMeshes_eq_nil env.regions hempty
  simp [mainRun, hin, hload, hm]

/-- Witness for C4 at a concrete run: two regions, one with `None` and one
with an empty support volume. -/
theorem main_empty_result_is_success_witness :
    (mainRun defaultNamespace
        ⟨true, false, [⟨PyVal.pyNone⟩, ⟨PyVal.pyMesh []⟩], false,
          false⟩).exitCode = 0 ∧
    (mainRun defaultNamespace
        ⟨true, false, [⟨PyVal.pyNone⟩, ⟨PyVal.pyMesh []⟩], false,
          false⟩).warnedEmpty = true ∧
    (mainRun defaultNamespace
        ⟨true, false, [⟨PyVal.pyNone⟩, ⟨PyVal.pyMesh []⟩], false,
          false⟩).written = none :=
  main_empty_result_is_success defaultNamespace
    ⟨true, false, [⟨PyVal.pyNone⟩, ⟨PyVal.pyMesh []⟩], false, false⟩
    rfl rfl (by decide)

/-- C9: once the support GLB has been written, a failure inside the
optional visualization step never changes the outcome: `main` logs the
exception, still returns exit code 0, and the written output is the
support-mesh list produced before the visualization step. -/
theorem show_failure_keeps_success (args : Namespace) (env : Env)
    (hin : env.inputIsFile = true) (hload : env.loadFails = false)
    (hmesh : (supportMeshes env.regions).isEmpty = false)
    (hexp : env.exportFails = false)
    (hshow : args.showScene = true) (hfail : env.showFails = true) :
    (mainRun args env).exitCode = 0 ∧
    (mainRun args env).written = some (supportMeshes env.regions) ∧
    (mainRun args env).showAttempted = true ∧
    (mainRun args env).showExceptionLogged = true := by
  simp [mainRun, hin, hload, hmesh, hexp, hshow, hfail]

/-- Witness for C9 at a concrete run: one truthy region, `--show`
requested, and a failing display step. -/
theorem show_failure_keeps_success_witness :
    (mainRun { defaultNamespace with showScene := true }
        ⟨true, false, [⟨PyVal.pyMesh [(0, 1, 2)]⟩], false, true⟩).exitCode =
      0 ∧
    (mainRun { defaultNamespace with showScene := true }
        ⟨true, false, [⟨PyVal.pyMesh [(0, 1, 2)]⟩], false, true⟩).written =
      some (supportMeshes [⟨PyVal.pyMesh [(0, 1, 2)]⟩]) ∧
    (mainRun { defaultNamespace with showScene := true }
        ⟨true, false, [⟨PyVal.pyMesh [(0, 1, 2)]⟩], false,
          true⟩).showAttempted = true ∧
    (mainRun { defaultNamespace with showScene := true }
        ⟨true, false, [⟨PyVal.pyMesh [(0, 1, 2)]⟩], false,
          true⟩).showExceptionLogged = true :=
  show_failure_keeps_success { defaultNamespace with showScene := true }
    ⟨true, false, [⟨PyVal.pyMesh [(0, 1, 2)]⟩], false, true⟩
    rfl rfl (by decide) rfl rfl rfl

/-- C8: the CLI exports exactly the support volumes of the truthy regions:
the list comprehension equals a truthiness filter followed by projection,
`None` and empty volumes never appear in it, and it is a sublist of the
full projection (the relative order of the kept regions is preserved). -/
theorem export_filters_truthy_volumes (regions : List Region) :
    supportMeshes regions =
      (regions.filter fun r => r.supportVolume.truthy).map
        (fun r => r.supportVolume) ∧
    PyVal.pyNone ∉ supportMeshes regions ∧
    PyVal.pyMesh [] ∉ supportMeshes regions ∧
    (supportMeshes regions).Sublist (regions.map fun r => r.supportVolume) :=
  ⟨supportMeshes_eq_filter_map regions,
    fun hmem => by
      have ht := supportMeshes_all_truthy regions _ hmem
      simp [PyVal.truthy] at ht,
    fun hmem => by
      have ht := supportMeshes_all_truthy regions _ hmem
      simp [PyVal.truthy] at ht,
    supportMeshes_sublist regions⟩

/-- C7: the example's layer-conversion loop appends, for each polygon of
each planar section in order, one contour for the exterior boundary (when
present) followed by one contour per interior hole in interior order. -/
theorem layer_receives_loops_in_order (sections : List (List Polygon)) :
    (buildLayer sections).geometry =
      sections.flatMap fun sec =>
        sec.flatMap fun p =>
          (match p.exterior with
          | some coords => [({ coords := coords } : ContourGeometry)]
          | none => []) ++
            p.interiors.map fun ring => ({ coords := ring } : ContourGeometry) := by
  rw [buildLayer_geometry]
  rfl

/-- C5: a block whose planar section at the requested height is `None`
(in particular any block whose Z extent excludes the height) contributes
nothing to the collected sections, and the downstream layer construction
runs only over the non-`None` sections produced. -/
theorem slice_miss_contributes_nothing (blocks : List Block) (z : ℚ)
    (b : Block) (_hb : b ∈ blocks) (hz : z < b.zMin ∨ b.zMax < z) :
    b.section z = none ∧
    supportSections blocks z = (blocks.filterMap fun bl => bl.section z) ∧
    (buildLayer (supportSections blocks z)).geometry =
      (blocks.filterMap fun bl => bl.section z).flatMap
        (fun sec => sec.flatMap polyLoops) := by
  have hnone : b.section z = none := by
    unfold Block.section
    rw [if_neg]
    rintro ⟨h1, h2⟩
    rcases hz with hz | hz
    · exact absurd h1 (not_le.mpr hz)
    · exact absurd h2 (not_le.mpr hz)
  exact ⟨hnone, supportSections_eq_filterMap blocks z, by
    rw [supportSections_eq_filterMap, buildLayer_geometry]⟩

/-- Witness for C5 at a concrete slice: a block of Z extent `[0, 12]`
sliced at height 15. -/
theorem slice_miss_contributes_nothing_witness :
    demoBlock.section 15 = none ∧
    supportSections [demoBlock] 15 =
      ([demoBlock].filterMap fun bl => bl.section 15) ∧
    (buildLayer (supportSections [demoBlock] 15)).geometry =
      ([demoBlock].filterMap fun bl => bl.section 15).flatMap
        (fun sec => sec.flatMap polyLoops) :=
  slice_miss_contributes_nothing [demoBlock] 15 demoBlock
    (List.mem_singleton.mpr rfl) (Or.inr (by norm_num [demoBlock]))

end PySLM
